import Mathlib

set_option maxHeartbeats 1000000

/-!
Verification of the article-gating engine in `src/server.js`.

The file shallowly embeds the gating logic of the server: the source
allow-list (`isAllowedSource`), the structural checks and the claim/citation
scan run after generation, and the `/api/gpt5/article` handler's control
flow.  JavaScript strings become Lean `String`s (lists of Unicode code
points), the regexes of the source are embedded as explicit scanning
functions over `List Char` with the exact semantics of the JS patterns
involved (including the ASCII-only `\w`-based `\b` of JavaScript), and the
dynamic request body becomes an explicit record where optional / non-array
fields are modelled by `Option` and a dedicated `SourcesField` type.
-/

/- ===== JS lexical classes ===== -/

/-- JavaScript regex `\s` class: the whitespace set used by `\S+` and `\s*`
in the source's regexes (ASCII whitespace plus the Unicode space
characters). -/
def jsWs (c : Char) : Bool :=
  let n := c.toNat
  n == 0x20 || n == 0x09 || n == 0x0a || n == 0x0d || n == 0x0b || n == 0x0c ||
  n == 0xa0 || n == 0x1680 || (decide (0x2000 ≤ n) && decide (n ≤ 0x200a)) ||
  n == 0x2028 || n == 0x2029 || n == 0x202f || n == 0x205f || n == 0x3000 ||
  n == 0xfeff

/-- JavaScript regex `\w` class (`[A-Za-z0-9_]`); this is what the word
boundary `\b` of a JS regex without the `u` flag is defined from.  Note that
Arabic letters are NOT in this class. -/
def wordChar (c : Char) : Bool :=
  (decide ('a' ≤ c) && decide (c ≤ 'z')) ||
  (decide ('A' ≤ c) && decide (c ≤ 'Z')) ||
  (decide ('0' ≤ c) && decide (c ≤ '9')) || c == '_'

/-- ASCII-only lowercasing of a string, modelling
`String.prototype.toLowerCase` on the (ASCII) hostnames this program
compares. -/
def jsToLower (s : String) : String := String.mk (s.data.map Char.toLower)

/-- Models `String.prototype.endsWith`: suffix test. -/
def jsEndsWith (s suf : String) : Bool := List.isSuffixOf suf.data s.data

/-- Models JavaScript's `||` default for a possibly-empty string
(`e.message || 'Bad Request'` style): the default is used exactly when the
string is falsy, i.e. empty. -/
def jsOrDefault (m d : String) : String := if m == "" then d else m

/- ===== Tag stripping: `.replace(/<[^>]+>/g, ' ')` ===== -/

/-- Scan for the `>` that closes a candidate `<[^>]+>` match, given the
characters after the first (non-`>`) character of the tag body; returns the
characters after the `>`. -/
def tagClose : List Char → Option (List Char)
  | [] => none
  | c :: cs => if c == '>' then some cs else tagClose cs

/-- Given the characters after a `<`, decide whether the regex `<[^>]+>`
matches here (`[^>]+` needs at least one non-`>` character before the `>`);
returns the characters after the match. -/
def findTagEnd : List Char → Option (List Char)
  | [] => none
  | c :: cs => if c == '>' then none else tagClose cs

/-- Fuelled scanner for the global replacement `.replace(/<[^>]+>/g, ' ')`:
each leftmost match of `<[^>]+>` is replaced by a single space; a `<` that
starts no match is kept.  The fuel is the length of the input, which bounds
the number of steps since every step consumes at least one character. -/
def stripTagsAux : Nat → List Char → List Char
  | 0, cs => cs
  | _ + 1, [] => []
  | fuel + 1, c :: cs =>
    if c == '<' then
      match findTagEnd cs with
      | some rest => ' ' :: stripTagsAux fuel rest
      | none => c :: stripTagsAux fuel cs
    else c :: stripTagsAux fuel cs

/-- `articleHtmlContent.replace(/<[^>]+>/g, ' ')` — the `textOnly` value of
the handler (line 144 of `src/server.js`). -/
def stripTags (s : String) : String := String.mk (stripTagsAux s.data.length s.data)

/- ===== Word count: `(textOnly.match(/\S+/g)||[]).length` ===== -/

/-- Count the maximal runs of non-`\s` characters; `inTok` records whether
the previous character was part of a run. -/
def wordCountAux (inTok : Bool) : List Char → Nat
  | [] => 0
  | c :: cs =>
    if jsWs c then wordCountAux false cs
    else (if inTok then 0 else 1) + wordCountAux true cs

/-- Number of `\S+` matches in the string: the word count of line 145 of
`src/server.js`. -/
def wordCount (s : String) : Nat := wordCountAux false s.data

/- ===== Literal prefix matching for the embedded regexes ===== -/

/-- Match a literal pattern at the head of the text; returns the rest of the
text after the pattern. -/
def matchPfx : List Char → List Char → Option (List Char)
  | [], rest => some rest
  | _ :: _, [] => none
  | p :: ps, c :: cs => if p == c then matchPfx ps cs else none

/-- Case-insensitive character comparison (the `i` flag of the disclaimer
regex). -/
def ciCharEq (a b : Char) : Bool := a.toLower == b.toLower

/-- Case-insensitive literal prefix match. -/
def ciMatchPfx : List Char → List Char → Option (List Char)
  | [], rest => some rest
  | _ :: _, [] => none
  | p :: ps, c :: cs => if ciCharEq p c then ciMatchPfx ps cs else none

/- ===== Disclaimer detection:
   `/إخلاء\s*المسؤولية|تنبيه\s*طبي|Disclaimer/i.test(textOnly)` ===== -/

/-- Match `a` then `\s*` then `b` at the current position. -/
def wsSeqAt (a b : List Char) (cs : List Char) : Bool :=
  match ciMatchPfx a cs with
  | some rest => (ciMatchPfx b (rest.dropWhile jsWs)).isSome
  | none => false

/-- Try the three disclaimer alternatives at every position. -/
def hasDisclaimerAux : List Char → Bool
  | [] => false
  | c :: cs =>
    wsSeqAt "إخلاء".data "المسؤولية".data (c :: cs) ||
    wsSeqAt "تنبيه".data "طبي".data (c :: cs) ||
    (ciMatchPfx "Disclaimer".data (c :: cs)).isSome ||
    hasDisclaimerAux cs

/-- The disclaimer test of line 147 of `src/server.js`. -/
def hasDisclaimer (s : String) : Bool := hasDisclaimerAux s.data

/- ===== Claim detection:
   `/\b(يقلل|يزيد|يمنع|يعالج|يحسن|يؤدي إلى)\b/.test(textOnly)` ===== -/

/-- The claim-verb alternatives of the regex on line 150 of
`src/server.js`. -/
def claimVerbs : List String := ["يقلل", "يزيد", "يمنع", "يعالج", "يحسن", "يؤدي إلى"]

/-- `\w`-ness of an optional character; the absent character at either end
of the string counts as a non-word character. -/
def optWordChar : Option Char → Bool
  | none => false
  | some c => wordChar c

/-- JavaScript `\b` between two (optional) adjacent characters: a boundary
exists when exactly one side is a `\w` character. -/
def jsWordBoundary (a b : Option Char) : Bool := optWordChar a != optWordChar b

/-- Match `\b v \b` at the current position (the character before the
position being `prev`). -/
def verbMatchAt (prev : Option Char) (cs : List Char) (v : String) : Bool :=
  match matchPfx v.data cs with
  | some rest =>
    jsWordBoundary prev v.data.head? && jsWordBoundary v.data.getLast? rest.head?
  | none => false

/-- Try the verb alternation at every position. -/
def hasClaimsAux (prev : Option Char) : List Char → Bool
  | [] => false
  | c :: cs => claimVerbs.any (verbMatchAt prev (c :: cs)) || hasClaimsAux (some c) cs

/-- The `hasClaims` test of line 150 of `src/server.js`, with JavaScript's
ASCII-`\w` based `\b` semantics. -/
def hasClaims (s : String) : Bool := hasClaimsAux none s.data

/- ===== Citation detection: `/\[\d+\]/.test(html)` ===== -/

/-- After at least one digit: more digits then `]`. -/
def citRest : List Char → Bool
  | [] => false
  | c :: cs => if c == ']' then true else c.isDigit && citRest cs

/-- After a `[`: at least one digit then (after more digits) `]`. -/
def citStart : List Char → Bool
  | [] => false
  | c :: cs => c.isDigit && citRest cs

/-- Try `\[\d+\]` at every position. -/
def hasCitationAux : List Char → Bool
  | [] => false
  | c :: cs => (c == '[' && citStart cs) || hasCitationAux cs

/-- The `hasCites` test of line 151 of `src/server.js`. -/
def hasCitation (s : String) : Bool := hasCitationAux s.data

/- ===== URL hostname extraction: models Node's WHATWG `new URL(url)` =====

The source delegates URL parsing to the platform's `new URL`; the model
below reproduces the WHATWG parser restricted to what `isAllowedSource`
observes: whether the constructor throws, and the `hostname` property. -/

/-- Characters allowed in a URL scheme after the first letter. -/
def schemeChar (c : Char) : Bool :=
  c.isAlpha || c.isDigit || c == '+' || c == '-' || c == '.'

/-- Accumulating scan for the `:` ending the scheme. -/
def splitSchemeGo (acc : List Char) : List Char → Option (List Char × List Char)
  | [] => none
  | c :: cs =>
    if c == ':' then some (acc.reverse, cs)
    else if schemeChar c then splitSchemeGo (c :: acc) cs
    else none

/-- Split `scheme:rest`; fails (the constructor throws) when the string has
no well-formed scheme, e.g. `"not a url"`. -/
def splitScheme : List Char → Option (List Char × List Char)
  | [] => none
  | c :: cs => if c.isAlpha then splitSchemeGo [c] cs else none

/-- The WHATWG special schemes that carry a host. -/
def specialSchemes : List String := ["http", "https", "ws", "wss", "ftp"]

/-- WHATWG forbidden host code points: a host containing one of these makes
the constructor throw. -/
def forbiddenHostChar (c : Char) : Bool :=
  c == '\x00' || c == '\t' || c == '\n' || c == '\r' || c == ' ' || c == '#' ||
  c == '/' || c == ':' || c == '<' || c == '>' || c == '?' || c == '@' ||
  c == '[' || c == '\\' || c == ']' || c == '^' || c == '|'

/-- Slashes ignored by the special-authority states. -/
def isSlash (c : Char) : Bool := c == '/' || c == '\\'

/-- Characters ending the authority component. -/
def authorityEnd (c : Char) : Bool :=
  c == '/' || c == '\\' || c == '?' || c == '#'

/-- Drop the userinfo: keep what follows the last `@`. -/
def afterLastAt (l : List Char) : List Char :=
  (l.reverse.takeWhile (fun c => !(c == '@'))).reverse

/-- All characters are ASCII digits. -/
def allDigits (l : List Char) : Bool := l.all Char.isDigit

/-- Parse an authority substring into the hostname: strip userinfo and
port, reject an empty host when `emptyOk` is false, reject forbidden host
code points and non-numeric ports, lowercase the host of a special
scheme. -/
def parseAuthority (auth : List Char) (emptyOk lower : Bool) : Option String :=
  let hostPort := afterLastAt auth
  let host := hostPort.takeWhile (fun c => !(c == ':'))
  let portPart := hostPort.dropWhile (fun c => !(c == ':'))
  if host.isEmpty && !emptyOk then none
  else if host.any forbiddenHostChar then none
  else if !portPart.isEmpty && !allDigits (portPart.drop 1) then none
  else some (String.mk (if lower then host.map Char.toLower else host))

/-- `new URL(url).hostname`, or `none` when the constructor throws.
Special schemes skip any run of slashes after the colon and require a
nonempty host; `file:` takes a (possibly empty) host only after `//`;
other schemes have a host only after `//` (kept verbatim, possibly
empty), and otherwise an opaque path with hostname `""`. -/
def urlHostname (url : String) : Option String :=
  match splitScheme url.data with
  | none => none
  | some (schemeCs, rest) =>
    let scheme := String.mk (schemeCs.map Char.toLower)
    if scheme == "file" then
      if rest.take 2 == ['/', '/'] then
        parseAuthority ((rest.drop 2).takeWhile (fun c => !authorityEnd c)) true true
      else some ""
    else if specialSchemes.contains scheme then
      let rest2 := rest.dropWhile isSlash
      parseAuthority (rest2.takeWhile (fun c => !authorityEnd c)) false true
    else
      if rest.take 2 == ['/', '/'] then
        parseAuthority ((rest.drop 2).takeWhile (fun c => !authorityEnd c)) true false
      else some ""

/- ===== SourceValidator (lines 14–22 of src/server.js) ===== -/

/-- The trusted-domain allow-list `SAFE_DOMAINS`. -/
def SAFE_DOMAINS : List String :=
  ["who.int", "cdc.gov", "nhs.uk", "pubmed.ncbi.nlm.nih.gov",
   "ncbi.nlm.nih.gov", "mayoclinic.org", "nih.gov"]

/-- The acceptance rule applied to the lowercased hostname `d`:
`SAFE_DOMAINS.some(sd => d === sd || d.endsWith('.'+sd))`, else
`d.endsWith('.gov') || d.endsWith('.edu')`. -/
def isAllowedHost (d : String) : Bool :=
  if SAFE_DOMAINS.any (fun sd => d == sd || jsEndsWith d ("." ++ sd)) then true
  else jsEndsWith d ".gov" || jsEndsWith d ".edu"

/-- `isAllowedSource` of `src/server.js`: parse the URL (returning `false`
when the constructor throws — the `catch` branch), lowercase the hostname,
apply the allow rule. -/
def isAllowedSource (url : String) : Bool :=
  match urlHostname url with
  | some h => isAllowedHost (jsToLower h)
  | none => false

/- ===== Data model (the articleSchema shapes) ===== -/

/-- The `article` object of the article schema. -/
structure GeneratedArticle where
  articleTitle : String
  articleHtmlContent : String
  secondaryKeywords : List String
deriving DecidableEq

/-- The `metadata` object of the article schema. -/
structure Metadata where
  metaTitle : String
  metaDescription : String
  socialTitle : String
  socialDescription : String
deriving DecidableEq

/-- The `gate` object of the article schema. -/
structure GateVerdict where
  blocked : Bool
  reasons : List String
  claimsNeedingCitations : List String
deriving DecidableEq

/-- The full article payload: what a conforming GenerationClient returns
and what the handler sends back on the success path. -/
structure ArticleResponse where
  article : GeneratedArticle
  metadata : Metadata
  gate : GateVerdict
deriving DecidableEq

/- ===== The reason strings of the handler ===== -/

/-- Reason pushed when topic/primaryKeyword/outline is missing
(line 130). -/
def missingFieldsMsg : String := "topic/primaryKeyword/outline مطلوبة"

/-- Reason pushed when `sources` is not an array of length 3–6
(line 131). -/
def sourceCountMsg : String := "عدد المصادر يجب أن يكون بين 3 و6"

/-- Reason pushed when some sources are rejected (line 133): the prefix is
followed by the rejected URLs joined with `', '`. -/
def badSourcesMsg (bad : List String) : String :=
  "مصادر غير موثوقة: " ++ String.intercalate ", " bad

/-- Reason pushed when the word count is below 1200 (line 146). -/
def tooShortMsg : String := "عدد الكلمات أقل من 1200."

/-- Reason pushed when no medical disclaimer is found (line 147). -/
def noDisclaimerMsg : String := "لا يوجد إخلاء مسؤولية طبي."

/-- Reason pushed when fewer than 3 secondary keywords are present
(line 148). -/
def fewKeywordsMsg : String := "كلمات ثانوية غير كافية."

/-- Entry pushed to `claimsNeedingCitations` (line 152). -/
def claimsMsg : String := "ادعاءات بدون إحالات مرقمة."

/-- Message of the `TypeError` thrown by line 132 when `p.sources` is a
truthy non-array value (such a value has no `.filter` method). -/
def filterNotAFunctionMsg : String := "p.sources.filter is not a function"

/- ===== Post-generation checks (lines 144–152) ===== -/

/-- The reasons appended by the structural checks, in the order of
lines 146–148: too short, missing disclaimer, too few secondary
keywords. -/
def structFindings (a : GeneratedArticle) : List String :=
  let textOnly := stripTags a.articleHtmlContent
  (if wordCount textOnly < 1200 then [tooShortMsg] else []) ++
  (if !hasDisclaimer textOnly then [noDisclaimerMsg] else []) ++
  (if a.secondaryKeywords.length < 3 then [fewKeywordsMsg] else [])

/-- The `claimsNeedingCitations` entries appended by lines 150–152: one
entry when a claim verb matches and no bracketed-integer citation occurs
anywhere in the raw HTML. -/
def claimFindings (a : GeneratedArticle) : List String :=
  if hasClaims (stripTags a.articleHtmlContent) && !hasCitation a.articleHtmlContent
  then [claimsMsg] else []

/-- Lines 144–152: push the structural findings onto `gate.reasons` and the
claim findings onto `gate.claimsNeedingCitations`; nothing else of the
payload is touched. -/
def appendFindings (out : ArticleResponse) : ArticleResponse :=
  { out with gate := { out.gate with
      reasons := out.gate.reasons ++ structFindings out.article,
      claimsNeedingCitations :=
        out.gate.claimsNeedingCitations ++ claimFindings out.article } }

/-- Line 154: force `gate.blocked` to `true` when (after the appends) the
reasons are non-empty, the gate was already blocked, or the claims list is
non-empty; otherwise the payload is returned unchanged. -/
def aggregate (out : ArticleResponse) : ArticleResponse :=
  if !out.gate.reasons.isEmpty || out.gate.blocked ||
     !out.gate.claimsNeedingCitations.isEmpty then
    { out with gate := { out.gate with blocked := true } }
  else out

/- ===== The request body and the handler (lines 126–157) ===== -/

/-- The JSON value found at `p.sources`: absent (or falsy, in which case
`p.sources || []` yields `[]`), an actual array of strings, or a truthy
non-array value (e.g. a plain string), on which line 132's `.filter`
throws a `TypeError`. -/
inductive SourcesField where
  | absent
  | arr (l : List String)
  | otherTruthy
deriving DecidableEq

/-- The request body fields read by the article handler; `none` models an
absent field. -/
structure ArticleRequest where
  topic : Option String
  primaryKeyword : Option String
  outline : Option String
  sources : SourcesField
deriving DecidableEq

/-- JavaScript truthiness of an optional string field (`!p.topic`):
present and non-empty. -/
def truthyStr : Option String → Bool
  | none => false
  | some s => !(s == "")

/-- `p.topic && p.primaryKeyword && p.outline` all truthy (line 130). -/
def requiredFieldsOk (p : ArticleRequest) : Bool :=
  truthyStr p.topic && truthyStr p.primaryKeyword && truthyStr p.outline

/-- `Array.isArray(p.sources) && 3 <= length <= 6` (line 131). -/
def sourcesCountOk : SourcesField → Bool
  | .arr l => decide (3 ≤ l.length) && decide (l.length ≤ 6)
  | _ => false

/-- `(p.sources||[]).filter(s => !isAllowedSource(s))` (line 132), on the
values where `.filter` does not throw. -/
def badSources : SourcesField → List String
  | .arr l => l.filter (fun s => !isAllowedSource s)
  | _ => []

/-- The `reasons` array collected by lines 129–133 before the blocking
decision.  For a truthy non-array `sources` the third component is never
pushed (line 132 throws first), and indeed it is `[]` there. -/
def collectedPreReasons (p : ArticleRequest) : List String :=
  (if !requiredFieldsOk p then [missingFieldsMsg] else []) ++
  (if !sourcesCountOk p.sources then [sourceCountMsg] else []) ++
  (if !(badSources p.sources).isEmpty then [badSourcesMsg (badSources p.sources)] else [])

/-- The blocked payload returned by lines 135–139 when pre-validation
collected any reason: note `articleTitle` is `p.topic || ''`, the other
article/metadata fields are empty, and the gate carries the collected
reasons. -/
def blockedPreResponse (p : ArticleRequest) : ArticleResponse :=
  { article := { articleTitle := p.topic.getD "", articleHtmlContent := "",
                 secondaryKeywords := [] }
    metadata := { metaTitle := "", metaDescription := "", socialTitle := "",
                  socialDescription := "" }
    gate := { blocked := true, reasons := collectedPreReasons p,
              claimsNeedingCitations := [] } }

/- ===== The parsed generation payload, as the handler actually sees it =====

`gpt5Structured` returns whatever `JSON.parse` produced; the handler reads
it dynamically, so a non-conforming object is not rejected up front: some
missing fields make a later read throw a `TypeError` (caught by line 156),
while deviations the handler never reads — a missing `metadata`, a missing
`articleTitle`, extra fields — flow through to `res.json(out)` as a 200.
The types below make every field the handler reads optional, so all these
shapes are representable. -/

/-- The `article` member of the parsed object; each field may be missing.
`secondaryKeywords = none` also covers a present non-array value: line 148
treats both identically (`Array.isArray` is false, `.length` is never
read), and no other line reads the field. -/
structure GenArticleObj where
  articleTitle : Option String
  articleHtmlContent : Option String
  secondaryKeywords : Option (List String)
deriving DecidableEq

/-- The `gate` member of the parsed object; each field may be missing
(`blocked = none` is JavaScript `undefined`, which is falsy at
line 154). -/
structure GenGateObj where
  blocked : Option Bool
  reasons : Option (List String)
  claimsNeedingCitations : Option (List String)
deriving DecidableEq

/-- The parsed generation payload: the three members the handler reads,
each possibly missing.  (Extra top-level fields are never read and never
written, so they need no representation: they ride along unchanged.) -/
structure GenResultObj where
  article : Option GenArticleObj
  metadata : Option Metadata
  gate : Option GenGateObj
deriving DecidableEq

/-- A conforming payload viewed as a parsed object (every field
present). -/
def ArticleResponse.toRaw (r : ArticleResponse) : GenResultObj :=
  { article := some { articleTitle := some r.article.articleTitle,
                      articleHtmlContent := some r.article.articleHtmlContent,
                      secondaryKeywords := some r.article.secondaryKeywords },
    metadata := some r.metadata,
    gate := some { blocked := some r.gate.blocked,
                   reasons := some r.gate.reasons,
                   claimsNeedingCitations := some r.gate.claimsNeedingCitations } }

/-- Message of the `TypeError` raised by reading a property of
`undefined`; models Node's `Cannot read properties of undefined
(reading 'prop')` (the quotation marks around the property name are
omitted). -/
def undefinedReadMsg (prop : String) : String :=
  "Cannot read properties of undefined (reading " ++ prop ++ ")"

/-- `out.gate.reasons.push(msg)` (lines 146–148): throws when `gate` is
missing (reading `reasons`) or `reasons` is missing (reading `push`). -/
def pushReason (out : GenResultObj) (msg : String) : Except String GenResultObj :=
  match out.gate with
  | none => .error (undefinedReadMsg "reasons")
  | some g =>
    match g.reasons with
    | none => .error (undefinedReadMsg "push")
    | some rs =>
      .ok { out with gate := some { g with reasons := some (rs ++ [msg]) } }

/-- `out.gate.claimsNeedingCitations.push(msg)` (line 152): throws when
`gate` is missing (reading `claimsNeedingCitations`) or the list is missing
(reading `push`). -/
def pushClaim (out : GenResultObj) (msg : String) : Except String GenResultObj :=
  match out.gate with
  | none => .error (undefinedReadMsg "claimsNeedingCitations")
  | some g =>
    match g.claimsNeedingCitations with
    | none => .error (undefinedReadMsg "push")
    | some cl =>
      .ok { out with gate := some { g with claimsNeedingCitations := some (cl ++ [msg]) } }

/-- Line 148's condition on a present `article`:
`!Array.isArray(out.article.secondaryKeywords) ||
out.article.secondaryKeywords.length < 3` (the `||` short-circuits, so
`.length` is only read when it is an array). -/
def keywordsInsufficient (a : GenArticleObj) : Bool :=
  match a.secondaryKeywords with
  | none => true
  | some l => decide (l.length < 3)

/-- Line 154's condition
`out.gate.reasons.length || out.gate.blocked ||
out.gate.claimsNeedingCitations.length` on a present `gate`, with
JavaScript's short-circuit evaluation: a missing `reasons` always throws
(reading `length`); a missing `claimsNeedingCitations` throws only when
the first two disjuncts are falsy. -/
def gateCond (g : GenGateObj) : Except String Bool :=
  match g.reasons with
  | none => .error (undefinedReadMsg "length")
  | some rs =>
    if rs.length != 0 then .ok true
    else if g.blocked.getD false then .ok true
    else
      match g.claimsNeedingCitations with
      | none => .error (undefinedReadMsg "length")
      | some cl => .ok (cl.length != 0)

/-- Line 146: push the too-short reason when the word count of the
stripped text is below 1200. -/
def step146 (textOnly : String) (out : GenResultObj) : Except String GenResultObj :=
  if wordCount textOnly < 1200 then pushReason out tooShortMsg else .ok out

/-- Line 147: push the missing-disclaimer reason when no disclaimer
phrase matches. -/
def step147 (textOnly : String) (out : GenResultObj) : Except String GenResultObj :=
  if !hasDisclaimer textOnly then pushReason out noDisclaimerMsg else .ok out

/-- Line 148: the unconditional `out.article.secondaryKeywords` read
throws when `article` is missing; otherwise push the
insufficient-keywords reason when the condition holds. -/
def step148 (out : GenResultObj) : Except String GenResultObj :=
  match out.article with
  | none => .error (undefinedReadMsg "secondaryKeywords")
  | some a =>
    if keywordsInsufficient a then pushReason out fewKeywordsMsg else .ok out

/-- Lines 150–152: push the claims entry when a claim verb matches the
stripped text and no bracketed-integer citation occurs in the raw HTML.
(Line 151's plain `out.article.articleHtmlContent || ''` cannot throw
here: a missing `article` already threw at line 148, so the tolerant read
below is exact.) -/
def step152 (textOnly : String) (out : GenResultObj) : Except String GenResultObj :=
  if hasClaims textOnly &&
     !hasCitation ((out.article.bind (fun a => a.articleHtmlContent)).getD "")
  then pushClaim out claimsMsg else .ok out

/-- Line 154: evaluate the blocking condition (reading the gate, with the
throws described at `gateCond`) and force `blocked` to true when it
holds. -/
def step154 (out : GenResultObj) : Except String GenResultObj :=
  match out.gate with
  | none => .error (undefinedReadMsg "reasons")
  | some g =>
    match gateCond g with
    | .error e => .error e
    | .ok b =>
      .ok (if b then { out with gate := some { g with blocked := some true } } else out)

/-- Lines 144–155 on the parsed object: compute `textOnly` once from the
optional-chained line-144 read (a missing `article` or
`articleHtmlContent` gives `''`), then run the mutation steps in source
order, each step's `TypeError` (if any) short-circuiting to the catch of
line 156. -/
def postValidateRaw (out0 : GenResultObj) : Except String GenResultObj :=
  let textOnly := stripTags ((out0.article.bind (fun a => a.articleHtmlContent)).getD "")
  (step146 textOnly out0).bind (fun o1 =>
    (step147 textOnly o1).bind (fun o2 =>
      (step148 o2).bind (fun o3 =>
        (step152 textOnly o3).bind step154)))

/-- Outcome of one request to the article route: a JSON payload (HTTP 200),
or an HTTP 400 with the message of the caught exception
(`e.message || 'Bad Request'`, line 156).  Both `ok` and `okRaw` are the
same transport outcome (a 200 with a JSON body); `ok` is used where the
handler itself built the payload (lines 135–139), whose shape conforms by
construction, and `okRaw` for the passthrough of the (possibly partial)
generation object at line 155. -/
inductive HandlerResult where
  | ok (r : ArticleResponse)
  | okRaw (r : GenResultObj)
  | badRequest (msg : String)
deriving DecidableEq

/-- The path taken when line 132 does not throw: block on any collected
pre-validation reason without touching the generation oracle; otherwise
consult it — a thrown failure is caught by line 156, and a parsed object
of any shape goes through lines 144–155, whose own `TypeError`s are
likewise caught. -/
def articleHandlerMain (p : ArticleRequest) (gen : Except String GenResultObj) :
    HandlerResult × Nat :=
  if collectedPreReasons p ≠ [] then (.ok (blockedPreResponse p), 0)
  else
    match gen with
    | .error m => (.badRequest (jsOrDefault m "Bad Request"), 1)
    | .ok out =>
      match postValidateRaw out with
      | .error m => (.badRequest (jsOrDefault m "Bad Request"), 1)
      | .ok res => (.okRaw res, 1)

/-- The `/api/gpt5/article` handler (lines 126–157).  `gen` is the
GenerationClient oracle: what the single `gpt5Structured` call would
produce — `Except.error` models what actually throws inside it (a
transport failure or an unparseable reply), while any parsed object,
conforming or not, is `Except.ok` and is handed to lines 144–155.  The
second component counts how often the oracle is consulted.  When
`p.sources` is a truthy non-array value, line 132 throws a `TypeError`
before the blocking decision, so the catch of line 156 answers 400 and
generation is never reached. -/
def articleHandler (p : ArticleRequest) (gen : Except String GenResultObj) :
    HandlerResult × Nat :=
  match p.sources with
  | .otherTruthy => (.badRequest (jsOrDefault filterNotAFunctionMsg "Bad Request"), 0)
  | _ => articleHandlerMain p gen

/- ===== Helper lemmas ===== -/

/-- A source-style `if cond return true; return x` collapses to a
disjunction. -/
theorem if_true_left_or (c x : Bool) : (if c = true then true else x) = (c || x) := by
  cases c <;> simp

/-- `appendFindings` leaves the blocked flag alone. -/
theorem appendFindings_blocked (out : ArticleResponse) :
    (appendFindings out).gate.blocked = out.gate.blocked := rfl

/-- `appendFindings` appends the structural findings to the reasons. -/
theorem appendFindings_reasons (out : ArticleResponse) :
    (appendFindings out).gate.reasons
      = out.gate.reasons ++ structFindings out.article := rfl

/-- The allow rule on a lowercased hostname, as an explicit disjunction
over the seven allow-list entries and the two suffix rules. -/
theorem isAllowedHost_iff (d : String) :
    isAllowedHost d = true ↔
      (d = "who.int" ∨ jsEndsWith d ".who.int" = true ∨
       d = "cdc.gov" ∨ jsEndsWith d ".cdc.gov" = true ∨
       d = "nhs.uk" ∨ jsEndsWith d ".nhs.uk" = true ∨
       d = "pubmed.ncbi.nlm.nih.gov" ∨ jsEndsWith d ".pubmed.ncbi.nlm.nih.gov" = true ∨
       d = "ncbi.nlm.nih.gov" ∨ jsEndsWith d ".ncbi.nlm.nih.gov" = true ∨
       d = "mayoclinic.org" ∨ jsEndsWith d ".mayoclinic.org" = true ∨
       d = "nih.gov" ∨ jsEndsWith d ".nih.gov" = true ∨
       jsEndsWith d ".gov" = true ∨ jsEndsWith d ".edu" = true) := by
  unfold isAllowedHost
  rw [if_true_left_or]
  simp only [SAFE_DOMAINS, List.any_cons, List.any_nil, Bool.or_eq_true,
    Bool.or_false, beq_iff_eq]
  constructor <;> intro h <;> tauto

/- ===== C2 ===== -/

/-- The acceptance condition exactly as the specification words it: the URL
parses and its lowercased hostname exactly equals, or is a dot-suffix
subdomain of, one of the seven trusted domains, or the hostname ends in
`.gov` or `.edu`. -/
def specAllowedHost (h : String) : Prop :=
  jsToLower h = "who.int" ∨ jsEndsWith (jsToLower h) ".who.int" = true ∨
  jsToLower h = "cdc.gov" ∨ jsEndsWith (jsToLower h) ".cdc.gov" = true ∨
  jsToLower h = "nhs.uk" ∨ jsEndsWith (jsToLower h) ".nhs.uk" = true ∨
  jsToLower h = "pubmed.ncbi.nlm.nih.gov" ∨
    jsEndsWith (jsToLower h) ".pubmed.ncbi.nlm.nih.gov" = true ∨
  jsToLower h = "ncbi.nlm.nih.gov" ∨ jsEndsWith (jsToLower h) ".ncbi.nlm.nih.gov" = true ∨
  jsToLower h = "mayoclinic.org" ∨ jsEndsWith (jsToLower h) ".mayoclinic.org" = true ∨
  jsToLower h = "nih.gov" ∨ jsEndsWith (jsToLower h) ".nih.gov" = true ∨
  jsEndsWith (jsToLower h) ".gov" = true ∨ jsEndsWith (jsToLower h) ".edu" = true

/-- C2: `isAllowedSource(url)` returns true iff the url parses as a
well-formed absolute URL whose lowercased hostname exactly equals, or is a
dot-suffix subdomain of, one of the seven allow-list entries, or whose
hostname ends in `.gov` or `.edu`; every other hostname and every
non-parseable string yields false (the function is total: no exception
escapes). -/
theorem isAllowedSource_iff_spec (url : String) :
    isAllowedSource url = true ↔
      ∃ h, urlHostname url = some h ∧ specAllowedHost h := by
  unfold isAllowedSource
  cases hu : urlHostname url with
  | none => simp
  | some h =>
    simp only [Option.some.injEq]
    rw [isAllowedHost_iff]
    unfold specAllowedHost
    constructor
    · intro hA
      exact ⟨h, rfl, hA⟩
    · rintro ⟨h', rfl, hs⟩
      exact hs

/- ===== C3 ===== -/

/-- The blocked flag after aggregation, as a boolean formula. -/
theorem aggregate_blocked_eq (o : ArticleResponse) :
    (aggregate o).gate.blocked =
      (!o.gate.reasons.isEmpty || o.gate.blocked ||
       !o.gate.claimsNeedingCitations.isEmpty) := by
  unfold aggregate
  split
  · next h => exact (h.symm : _)
  · next h =>
    have hf := eq_false_of_ne_true h
    rw [hf]
    simp only [Bool.or_eq_false_iff] at hf
    exact hf.1.2

/-- C3: after the post-validation appends, the final `gate.blocked` is true
iff the (post-append) reasons are non-empty, or the (post-append)
`claimsNeedingCitations` is non-empty, or the GenerationClient-reported
blocked flag was already true; otherwise it is left false. -/
theorem final_blocked_iff_findings (out : ArticleResponse) :
    (aggregate (appendFindings out)).gate.blocked = true ↔
      ((appendFindings out).gate.reasons ≠ [] ∨
       (appendFindings out).gate.claimsNeedingCitations ≠ [] ∨
       out.gate.blocked = true) := by
  have e : ∀ (l : List String), ((!l.isEmpty) = true ↔ l ≠ []) := by
    intro l
    cases l <;> simp
  rw [aggregate_blocked_eq, appendFindings_blocked]
  rw [Bool.or_eq_true, Bool.or_eq_true, e, e]
  tauto

/- ===== C5 ===== -/

/-- C5: the word count is the token count of the tag-stripped text, and the
too-short reason is appended (it appears among the reasons added after the
self-reported prefix) iff that count is strictly below 1200. -/
theorem tooShort_reason_iff (out : ArticleResponse) :
    tooShortMsg ∈ ((appendFindings out).gate.reasons.drop out.gate.reasons.length) ↔
      wordCount (stripTags out.article.articleHtmlContent) < 1200 := by
  rw [appendFindings_reasons, List.drop_left]
  unfold structFindings
  by_cases h1 : wordCount (stripTags out.article.articleHtmlContent) < 1200 <;>
    by_cases h2 : hasDisclaimer (stripTags out.article.articleHtmlContent) = true <;>
      by_cases h3 : out.article.secondaryKeywords.length < 3 <;>
        simp [h1, h2, h3, tooShortMsg, noDisclaimerMsg, fewKeywordsMsg]

/- ===== C7 ===== -/

/-- C7: post-validation returns article and metadata exactly as produced by
GenerationClient, and only appends to the gate sequences: the self-reported
entries survive, in order, as a prefix. -/
theorem postValidation_frame (out : ArticleResponse) :
    (aggregate (appendFindings out)).article = out.article ∧
    (aggregate (appendFindings out)).metadata = out.metadata ∧
    (∃ t, (aggregate (appendFindings out)).gate.reasons
            = out.gate.reasons ++ t) ∧
    (∃ t, (aggregate (appendFindings out)).gate.claimsNeedingCitations
            = out.gate.claimsNeedingCitations ++ t) := by
  unfold aggregate
  split <;>
    exact ⟨rfl, rfl, ⟨structFindings out.article, rfl⟩,
           ⟨claimFindings out.article, rfl⟩⟩

/- ===== C9 ===== -/

/-- C9: the post-generation checks are deterministic functions of the
article: run twice over the same `GeneratedArticle`, each time from a
freshly-initialized accumulator, they produce identical gates (hence
identical reason and claim sequences) — there is no hidden cross-call
state. -/
theorem checks_deterministic_fresh (a : GeneratedArticle) (m1 m2 : Metadata)
    (g1 g2 : GateVerdict)
    (h1 : g1.blocked = false ∧ g1.reasons = [] ∧ g1.claimsNeedingCitations = [])
    (h2 : g2.blocked = false ∧ g2.reasons = [] ∧ g2.claimsNeedingCitations = []) :
    (appendFindings ⟨a, m1, g1⟩).gate = (appendFindings ⟨a, m2, g2⟩).gate := by
  obtain ⟨b1, r1, c1⟩ := h1
  obtain ⟨b2, r2, c2⟩ := h2
  cases g1
  cases g2
  simp_all [appendFindings]

/-- Sample article for the determinism witness. -/
def c9Article : GeneratedArticle :=
  { articleTitle := "مقال", articleHtmlContent := "<p>نص قصير.</p>",
    secondaryKeywords := ["أ", "ب", "ج"] }

/-- Sample metadata for the determinism witness. -/
def c9Meta : Metadata :=
  { metaTitle := "", metaDescription := "", socialTitle := "",
    socialDescription := "" }

/-- Witness for C9 at a concrete article and two fresh accumulators. -/
theorem checks_deterministic_fresh_witness :
    ((GateVerdict.mk false [] []).blocked = false ∧
     (GateVerdict.mk false [] []).reasons = [] ∧
     (GateVerdict.mk false [] []).claimsNeedingCitations = []) ∧
    (appendFindings ⟨c9Article, c9Meta, ⟨false, [], []⟩⟩).gate
      = (appendFindings ⟨c9Article, c9Meta, ⟨false, [], []⟩⟩).gate :=
  ⟨⟨rfl, rfl, rfl⟩,
   checks_deterministic_fresh c9Article c9Meta c9Meta ⟨false, [], []⟩ ⟨false, [], []⟩
     ⟨rfl, rfl, rfl⟩ ⟨rfl, rfl, rfl⟩⟩

/- ===== Handler helper lemmas ===== -/

/-- `sources` is an array or absent/falsy: exactly the shapes on which
line 132's `.filter` call does not throw. -/
def sourcesArrayOrAbsent : SourcesField → Bool
  | .otherTruthy => false
  | _ => true

/-- On a truthy non-array `sources`, the handler answers 400 with the
`TypeError` message and never consults the generation oracle. -/
theorem articleHandler_otherTruthy (p : ArticleRequest)
    (gen : Except String GenResultObj) (hs : p.sources = .otherTruthy) :
    articleHandler p gen
      = (.badRequest (jsOrDefault filterNotAFunctionMsg "Bad Request"), 0) := by
  unfold articleHandler
  rw [hs]

/-- On the non-throwing `sources` shapes the handler is the main path. -/
theorem articleHandler_notOther (p : ArticleRequest)
    (gen : Except String GenResultObj)
    (ha : sourcesArrayOrAbsent p.sources = true) :
    articleHandler p gen = articleHandlerMain p gen := by
  unfold articleHandler
  cases hs : p.sources with
  | otherTruthy => rw [hs] at ha; simp [sourcesArrayOrAbsent] at ha
  | absent => rfl
  | arr l => rfl

/-- The main path short-circuits to the blocked payload when pre-validation
collected a reason. -/
theorem articleHandlerMain_pre (p : ArticleRequest)
    (gen : Except String GenResultObj) (h : collectedPreReasons p ≠ []) :
    articleHandlerMain p gen = (.ok (blockedPreResponse p), 0) := by
  unfold articleHandlerMain
  rw [if_pos h]

/-- With no pre-validation reason, a failing generation call surfaces as a
400 carrying the underlying message. -/
theorem articleHandlerMain_error (p : ArticleRequest) (m : String)
    (h : collectedPreReasons p = []) :
    articleHandlerMain p (Except.error m)
      = (.badRequest (jsOrDefault m "Bad Request"), 1) := by
  unfold articleHandlerMain
  rw [if_neg (by simp [h])]

/-- With no pre-validation reason, a parsed object whose post-generation
reads throw surfaces as a 400 with the `TypeError` message. -/
theorem articleHandlerMain_ok_error (p : ArticleRequest) (out : GenResultObj)
    (m : String) (h : collectedPreReasons p = [])
    (hp : postValidateRaw out = Except.error m) :
    articleHandlerMain p (Except.ok out)
      = (.badRequest (jsOrDefault m "Bad Request"), 1) := by
  unfold articleHandlerMain
  rw [if_neg (by simp [h])]
  simp only [hp]

/-- With no pre-validation reason, a parsed object that survives the
post-generation reads is sent back verbatim (possibly partial). -/
theorem articleHandlerMain_ok_ok (p : ArticleRequest) (out r : GenResultObj)
    (h : collectedPreReasons p = [])
    (hp : postValidateRaw out = Except.ok r) :
    articleHandlerMain p (Except.ok out) = (.okRaw r, 1) := by
  unfold articleHandlerMain
  rw [if_neg (by simp [h])]
  simp only [hp]

/-- No pre-validation reason forces `sources` to be an actual array (a
non-array always yields the count reason). -/
theorem no_pre_reason_sources_array (p : ArticleRequest)
    (h : collectedPreReasons p = []) : sourcesArrayOrAbsent p.sources = true := by
  cases hs : p.sources with
  | otherTruthy => simp [collectedPreReasons, hs, sourcesCountOk] at h
  | absent => simp [collectedPreReasons, hs, sourcesCountOk] at h
  | arr l => rfl

/- ===== C1 ===== -/

/-- C1 (amended): whenever pre-validation collects any reason, the
generation oracle is never consulted; and when `sources` is an array or
absent (so line 132 does not throw), the handler returns the blocked
verdict carrying the collected reasons. -/
theorem pre_reason_blocks_without_generation (p : ArticleRequest)
    (gen : Except String GenResultObj) (h : collectedPreReasons p ≠ []) :
    (articleHandler p gen).2 = 0 ∧
    (sourcesArrayOrAbsent p.sources = true →
      articleHandler p gen = (.ok (blockedPreResponse p), 0) ∧
      (blockedPreResponse p).gate.blocked = true ∧
      (blockedPreResponse p).gate.reasons = collectedPreReasons p) := by
  constructor
  · cases hs : p.sources with
    | otherTruthy => rw [articleHandler_otherTruthy p gen hs]
    | absent =>
      rw [articleHandler_notOther p gen (by rw [hs]; rfl), articleHandlerMain_pre p gen h]
    | arr l =>
      rw [articleHandler_notOther p gen (by rw [hs]; rfl), articleHandlerMain_pre p gen h]
  · intro ha
    exact ⟨(articleHandler_notOther p gen ha).trans (articleHandlerMain_pre p gen h),
           rfl, rfl⟩

/-- A request with only two (allowed) sources: pre-validation records the
3–6 bound reason. -/
def c1Req : ArticleRequest :=
  { topic := some "سكري", primaryKeyword := some "سكري",
    outline := some "هيكل المقال",
    sources := .arr ["https://www.cdc.gov/ar/diabetes", "https://www.nih.gov/health"] }

/-- Witness for C1 at a concrete two-source request. -/
theorem pre_reason_blocks_without_generation_witness :
    (collectedPreReasons c1Req ≠ []) ∧
    ((articleHandler c1Req (Except.error "unreached")).2 = 0 ∧
     (sourcesArrayOrAbsent c1Req.sources = true →
       articleHandler c1Req (Except.error "unreached")
         = (.ok (blockedPreResponse c1Req), 0) ∧
       (blockedPreResponse c1Req).gate.blocked = true ∧
       (blockedPreResponse c1Req).gate.reasons = collectedPreReasons c1Req)) :=
  ⟨by decide,
   pre_reason_blocks_without_generation c1Req (Except.error "unreached") (by decide)⟩

/-- A request whose `sources` field is a truthy non-array value. -/
def c1BadReq : ArticleRequest :=
  { topic := some "موضوع", primaryKeyword := some "كلمة", outline := some "هيكل",
    sources := .otherTruthy }

/-- Counterexample to C1 as stated: this request has a pre-validation
reason (the source-count reason — `sources` is not a sequence of length
3–6), yet the operation does not return a blocked verdict: line 132's
`.filter` throws, the catch answers 400, and no `ArticleResponse` is
produced (GenerationClient is still never invoked). -/
theorem pre_reason_blocked_counterexample :
    collectedPreReasons c1BadReq ≠ [] ∧
    sourceCountMsg ∈ collectedPreReasons c1BadReq ∧
    articleHandler c1BadReq (Except.error "unreached")
      = (.badRequest filterNotAFunctionMsg, 0) ∧
    (articleHandler c1BadReq (Except.error "unreached")).1
      ≠ .ok (blockedPreResponse c1BadReq) := by
  exact ⟨by decide, by decide, rfl, by decide⟩

/- ===== C6 ===== -/

/-- C6 (amended): a pre-validation failure (on a non-throwing `sources`
shape) returns the blocked payload whose `articleTitle` is the request's
topic (empty only when the topic is absent/falsy), whose remaining article
and metadata fields are empty, with `gate.blocked = true`, the collected
reasons, and no `claimsNeedingCitations`. -/
theorem blocked_pre_response_shape (p : ArticleRequest)
    (gen : Except String GenResultObj) (h : collectedPreReasons p ≠ [])
    (ha : sourcesArrayOrAbsent p.sources = true) :
    (articleHandler p gen).1 = .ok (blockedPreResponse p) ∧
    (blockedPreResponse p).article.articleTitle = p.topic.getD "" ∧
    (blockedPreResponse p).article.articleHtmlContent = "" ∧
    (blockedPreResponse p).article.secondaryKeywords = [] ∧
    (blockedPreResponse p).metadata = ⟨"", "", "", ""⟩ ∧
    (blockedPreResponse p).gate = ⟨true, collectedPreReasons p, []⟩ := by
  refine ⟨?_, rfl, rfl, rfl, rfl, rfl⟩
  rw [articleHandler_notOther p gen ha, articleHandlerMain_pre p gen h]

/-- A two-source request with a present topic, used against C6. -/
def c6Req : ArticleRequest :=
  { topic := some "سكري", primaryKeyword := some "سكري", outline := some "هيكل",
    sources := .arr ["https://www.cdc.gov/a", "https://www.nih.gov/b"] }

/-- Counterexample to C6 as stated: this blocked response has
`articleTitle = "سكري"` (the topic), not the empty string. -/
theorem blocked_pre_empty_fields_counterexample :
    collectedPreReasons c6Req ≠ [] ∧
    articleHandler c6Req (Except.error "unreached")
      = (.ok (blockedPreResponse c6Req), 0) ∧
    (blockedPreResponse c6Req).article.articleTitle = "سكري" ∧
    (blockedPreResponse c6Req).article.articleTitle ≠ "" := by
  exact ⟨by decide, by decide, rfl, by decide⟩

/-- Witness for the amended C6 at the same concrete request. -/
theorem blocked_pre_response_shape_witness :
    (collectedPreReasons c6Req ≠ [] ∧ sourcesArrayOrAbsent c6Req.sources = true) ∧
    ((articleHandler c6Req (Except.error "unreached")).1
        = .ok (blockedPreResponse c6Req) ∧
     (blockedPreResponse c6Req).article.articleTitle = c6Req.topic.getD "" ∧
     (blockedPreResponse c6Req).article.articleHtmlContent = "" ∧
     (blockedPreResponse c6Req).article.secondaryKeywords = [] ∧
     (blockedPreResponse c6Req).metadata = ⟨"", "", "", ""⟩ ∧
     (blockedPreResponse c6Req).gate = ⟨true, collectedPreReasons c6Req, []⟩) :=
  ⟨⟨by decide, rfl⟩,
   blocked_pre_response_shape c6Req (Except.error "unreached") (by decide) rfl⟩

/- ===== C8 ===== -/

/-- C8 (amended): past pre-validation, the generation oracle is consulted
exactly once, with three possible outcomes: a thrown failure (transport
error or unparseable reply) surfaces as a request failure carrying the
underlying message; a parsed object whose missing `article`/`gate` fields
make a post-generation read throw likewise surfaces as a request failure
with the `TypeError` message; and a parsed object that survives those
reads — conforming or not — is returned as a 200 payload.  In no case is
a retry performed. -/
theorem generation_failure_and_passthrough (p : ArticleRequest) (m : String)
    (out pr : GenResultObj) (h : collectedPreReasons p = []) :
    (articleHandler p (Except.error m)
       = (.badRequest (jsOrDefault m "Bad Request"), 1)) ∧
    (m ≠ "" → jsOrDefault m "Bad Request" = m) ∧
    (postValidateRaw out = Except.error m →
       articleHandler p (Except.ok out)
         = (.badRequest (jsOrDefault m "Bad Request"), 1)) ∧
    (postValidateRaw out = Except.ok pr →
       articleHandler p (Except.ok out) = (.okRaw pr, 1)) := by
  have ha := no_pre_reason_sources_array p h
  refine ⟨?_, ?_, ?_, ?_⟩
  · rw [articleHandler_notOther p (Except.error m) ha,
        articleHandlerMain_error p m h]
  · intro hm
    unfold jsOrDefault
    rw [if_neg (by simpa using hm)]
  · intro hp
    rw [articleHandler_notOther p (Except.ok out) ha,
        articleHandlerMain_ok_error p out m h hp]
  · intro hp
    rw [articleHandler_notOther p (Except.ok out) ha,
        articleHandlerMain_ok_ok p out pr h hp]

/-- A fully valid request with three allowed sources. -/
def c8Req : ArticleRequest :=
  { topic := some "سكري", primaryKeyword := some "سكري", outline := some "هيكل",
    sources := .arr ["https://www.cdc.gov/a", "https://www.nih.gov/b",
                     "https://medlineplus.gov/c"] }

/-- A non-conforming generation result: `metadata` is missing entirely,
while the fields the handler actually reads are present. -/
def c8RawOut : GenResultObj :=
  { article := some { articleTitle := some "عنوان",
                      articleHtmlContent := some "<p>نص المقال</p>",
                      secondaryKeywords := some ["أ", "ب", "ج"] },
    metadata := none,
    gate := some { blocked := some false, reasons := some [],
                   claimsNeedingCitations := some [] } }

/-- What lines 144–155 make of `c8RawOut`: the too-short and
missing-disclaimer reasons are pushed, `blocked` is forced true, and
`metadata` is still missing. -/
def c8RawPost : GenResultObj :=
  { article := some { articleTitle := some "عنوان",
                      articleHtmlContent := some "<p>نص المقال</p>",
                      secondaryKeywords := some ["أ", "ب", "ج"] },
    metadata := none,
    gate := some { blocked := some true,
                   reasons := some [tooShortMsg, noDisclaimerMsg],
                   claimsNeedingCitations := some [] } }

/-- Counterexample to C8 as stated: a valid request whose generation call
yields a non-conforming result (no `metadata`) is not answered with a
failure — the handler never reads `metadata`, lines 144–155 run through,
and the operation returns a 200 whose payload is a partial
`ArticleResponse` (its `metadata` still missing). -/
theorem generation_nonconforming_passthrough_counterexample :
    collectedPreReasons c8Req = [] ∧
    c8RawOut.metadata = none ∧
    articleHandler c8Req (Except.ok c8RawOut) = (.okRaw c8RawPost, 1) ∧
    c8RawPost.metadata = none := by
  exact ⟨by decide, rfl, by decide, rfl⟩

/-- Witness for the amended C8 at the concrete valid request, a failing
generation call, and the tolerated non-conforming result. -/
theorem generation_failure_and_passthrough_witness :
    collectedPreReasons c8Req = [] ∧
    ((articleHandler c8Req (Except.error "upstream failed")
        = (.badRequest (jsOrDefault "upstream failed" "Bad Request"), 1)) ∧
     (("upstream failed" : String) ≠ "" →
        jsOrDefault "upstream failed" "Bad Request" = "upstream failed") ∧
     (postValidateRaw c8RawOut = Except.error "upstream failed" →
        articleHandler c8Req (Except.ok c8RawOut)
          = (.badRequest (jsOrDefault "upstream failed" "Bad Request"), 1)) ∧
     (postValidateRaw c8RawOut = Except.ok c8RawPost →
        articleHandler c8Req (Except.ok c8RawOut) = (.okRaw c8RawPost, 1))) :=
  ⟨by decide,
   generation_failure_and_passthrough c8Req "upstream failed" c8RawOut c8RawPost
     (by decide)⟩

/- ===== C10 ===== -/

/-- A request whose `sources` field is present but a truthy non-array
value (e.g. a plain string). -/
def c10Req : ArticleRequest :=
  { topic := some "موضوع المقال", primaryKeyword := some "كلمة",
    outline := some "هيكل", sources := .otherTruthy }

/-- C10: for this request pre-validation has already recorded the
source-count reason, yet the operation does not return a blocked
`ArticleResponse`: the `.filter` call on the non-array raises, the error is
caught, and a request failure with the `TypeError` message is returned
(whatever the generation oracle would have said — it is never consulted). -/
theorem nonarray_sources_request_failure (gen : Except String GenResultObj) :
    sourceCountMsg ∈ collectedPreReasons c10Req ∧
    articleHandler c10Req gen = (.badRequest filterNotAFunctionMsg, 0) :=
  ⟨by decide, rfl⟩

/- ===== C4 ===== -/

/-- A word-like character in the sense of the specification's "whole word"
claim detection: an ASCII word character or an Arabic letter. -/
def wordLike (c : Char) : Bool :=
  wordChar c || (decide (0x0600 ≤ c.toNat) && decide (c.toNat ≤ 0x06FF))

/-- Word-likeness of an optional adjacent character (absent counts as not
word-like). -/
def optWordLike : Option Char → Bool
  | none => false
  | some c => wordLike c

/-- A claim verb occurs at this position as a whole word in the
specification's sense: no word-like character is adjacent on either
side. -/
def specVerbAt (prev : Option Char) (cs : List Char) (v : String) : Bool :=
  match matchPfx v.data cs with
  | some rest => !optWordLike prev && !optWordLike rest.head?
  | none => false

/-- Scan every position for a whole-word claim-verb occurrence. -/
def specHasClaimAux (prev : Option Char) : List Char → Bool
  | [] => false
  | c :: cs => claimVerbs.any (specVerbAt prev (c :: cs)) || specHasClaimAux (some c) cs

/-- Claim detection as the specification words it: the text contains one of
the assertive claim verbs as a whole word. -/
def specHasClaim (s : String) : Bool := specHasClaimAux none s.data

/-- An article whose text contains the claim verb `يقلل` as a whole word
(space on both sides) and no bracketed-integer citation anywhere. -/
def c4Article : GeneratedArticle :=
  { articleTitle := "عنوان",
    articleHtmlContent := "<p>هذا الدواء يقلل خطر المضاعفات بشكل ملحوظ.</p>",
    secondaryKeywords := ["أ", "ب", "ج"] }

/-- The payload carrying `c4Article` with a fresh self-reported gate. -/
def c4Out : ArticleResponse :=
  { article := c4Article,
    metadata := { metaTitle := "", metaDescription := "", socialTitle := "",
                  socialDescription := "" },
    gate := { blocked := false, reasons := [], claimsNeedingCitations := [] } }

/-- C4 (code bug): the stripped text of `c4Article` contains the claim verb
`يقلل` as a whole word and the HTML contains no bracketed integer, so the
claim requires exactly one appended `claimsNeedingCitations` entry; but the
code's `\b(يقلل|…)\b` test is false on this text — JavaScript's `\b` is
defined from the ASCII `\w` class, so around an Arabic verb it demands an
ASCII word character directly adjacent — and the code appends nothing. -/
theorem claim_scanner_misses_arabic_whole_word :
    specHasClaim (stripTags c4Article.articleHtmlContent) = true ∧
    hasCitation c4Article.articleHtmlContent = false ∧
    hasClaims (stripTags c4Article.articleHtmlContent) = false ∧
    (appendFindings c4Out).gate.claimsNeedingCitations = [] := by
  exact ⟨by decide, by decide, by decide, by decide⟩

/- ===== Conformance of the raw generation path ===== -/

/-- `gateCond` on a fully-present gate is line 154's boolean, with no
throw. -/
theorem gateCond_conforming (b : Bool) (rs cl : List String) :
    gateCond { blocked := some b, reasons := some rs,
               claimsNeedingCitations := some cl }
      = Except.ok (!rs.isEmpty || b || !cl.isEmpty) := by
  cases rs <;> cases b <;> cases cl <;> simp [gateCond]

/-- Line 146 on a present gate with present lists appends the conditional
too-short reason. -/
theorem step146_conforming (textOnly : String) (art : Option GenArticleObj)
    (md : Option Metadata) (b : Option Bool) (rs cl : List String) :
    step146 textOnly ⟨art, md, some ⟨b, some rs, some cl⟩⟩
      = Except.ok ⟨art, md, some ⟨b,
          some (rs ++ (if wordCount textOnly < 1200 then [tooShortMsg] else [])),
          some cl⟩⟩ := by
  by_cases h : wordCount textOnly < 1200 <;> simp [step146, pushReason, h]

/-- Line 147 on a present gate appends the conditional missing-disclaimer
reason. -/
theorem step147_conforming (textOnly : String) (art : Option GenArticleObj)
    (md : Option Metadata) (b : Option Bool) (rs cl : List String) :
    step147 textOnly ⟨art, md, some ⟨b, some rs, some cl⟩⟩
      = Except.ok ⟨art, md, some ⟨b,
          some (rs ++ (if !hasDisclaimer textOnly then [noDisclaimerMsg] else [])),
          some cl⟩⟩ := by
  by_cases h : hasDisclaimer textOnly = true <;> simp [step147, pushReason, h]

/-- Line 148 on a present article with a present keyword array appends the
conditional insufficient-keywords reason. -/
theorem step148_conforming (t html : Option String) (kw : List String)
    (md : Option Metadata) (b : Option Bool) (rs cl : List String) :
    step148 ⟨some ⟨t, html, some kw⟩, md, some ⟨b, some rs, some cl⟩⟩
      = Except.ok ⟨some ⟨t, html, some kw⟩, md, some ⟨b,
          some (rs ++ (if kw.length < 3 then [fewKeywordsMsg] else [])),
          some cl⟩⟩ := by
  by_cases h : kw.length < 3 <;> simp [step148, keywordsInsufficient, pushReason, h]

/-- Line 152 on a present article/gate appends the conditional claims
entry. -/
theorem step152_conforming (textOnly : String) (t : Option String) (html : String)
    (kws : Option (List String)) (md : Option Metadata) (b : Option Bool)
    (rs cl : List String) :
    step152 textOnly ⟨some ⟨t, some html, kws⟩, md, some ⟨b, some rs, some cl⟩⟩
      = Except.ok ⟨some ⟨t, some html, kws⟩, md, some ⟨b, some rs,
          some (cl ++ (if hasClaims textOnly && !hasCitation html
                       then [claimsMsg] else []))⟩⟩ := by
  by_cases h : (hasClaims textOnly && !hasCitation html) = true <;>
    simp [step152, pushClaim, h]

/-- Line 154 on a fully-present gate forces `blocked` exactly under the
aggregation condition. -/
theorem step154_conforming (art : Option GenArticleObj) (md : Option Metadata)
    (b : Bool) (R C : List String) :
    step154 ⟨art, md, some ⟨some b, some R, some C⟩⟩
      = Except.ok (if !R.isEmpty || b || !C.isEmpty
                   then ⟨art, md, some ⟨some true, some R, some C⟩⟩
                   else ⟨art, md, some ⟨some b, some R, some C⟩⟩) := by
  simp only [step154, gateCond_conforming]

/-- `toRaw` distributes over a conditional. -/
theorem toRaw_ite (c : Prop) [Decidable c] (x y : ArticleResponse) :
    (if c then x else y).toRaw = if c then x.toRaw else y.toRaw := by
  split <;> rfl

/-- On a conforming payload the dynamic lines 144–155 never throw and
compute exactly the structured composite `aggregate (appendFindings r)`:
the raw path agrees with the conforming post-validation wherever the
latter applies. -/
theorem postValidateRaw_conforming (r : ArticleResponse) :
    postValidateRaw r.toRaw = Except.ok ((aggregate (appendFindings r)).toRaw) := by
  obtain ⟨⟨t, html, kw⟩, md, ⟨b, rs, cl⟩⟩ := r
  simp only [appendFindings, structFindings, claimFindings, aggregate]
  rw [toRaw_ite]
  simp only [postValidateRaw, ArticleResponse.toRaw, Option.bind, Option.getD,
    step146_conforming, step147_conforming, step148_conforming, step152_conforming,
    Except.bind, step154_conforming, List.append_assoc]
